import Mathlib

/-!
Verification development for the Express training-guide repository.

The code under verification is the role-based JWT authorization middleware
(`src/5.Auth-Roles/src/middleware/bearAuth.ts`), the login service
(`loginUser` in the user service), and the email verification-code lifecycle
(`setVerificationCode` / `verifyUser` in the user repository together with the
service-layer `createUser` / `verifyUser`).  Each TypeScript function is
shallowly embedded as a total Lean function; external collaborators (the
database lookup, bcrypt comparison, and the jsonwebtoken library) are passed
in as explicit function parameters or modelled from their documented
behaviour.
-/

namespace ExpressGuide

/-! ## Verification lifecycle: data model -/

/-- The slice of a `Users` row relevant to the verification lifecycle:
`is_verified BIT` and `verification_code VARCHAR NULL`. -/
structure Record where
  is_verified : Bool
  verification_code : Option String
  deriving DecidableEq, Repr

namespace Repo

/-- Embeds `setVerificationCode` from
`src/8.unit-testing/src/repositories/user.repository.ts`:
`UPDATE Users SET verification_code = @code, is_verified = 0 WHERE email = @email`. -/
def setVerificationCode (code : String) (r : Record) : Record :=
  { r with verification_code := some code, is_verified := false }

/-- Embeds the repository `verifyUser`:
`UPDATE Users SET is_verified = 1, verification_code = NULL WHERE email = @email`. -/
def verifyUser (r : Record) : Record :=
  { r with is_verified := true, verification_code := none }

end Repo

namespace Service

/-- Embeds the service-layer `verifyUser(email, code)` (unnamed part_000):
look the user up by email (`none` models an absent row), throw
`'User not found'` if absent, throw `'Invalid verification code'` when
`user.verification_code !== code` (note a cleared `NULL` code never equals a
string), otherwise mark the user verified via the repository update.  The
returned pair is the updated record and the success message. -/
def verifyUser (code : String) (u : Option Record) : Except String (Record × String) :=
  match u with
  | none => .error "User not found"
  | some user =>
    if user.verification_code ≠ some code then .error "Invalid verification code"
    else .ok (Repo.verifyUser user, "User verified successfully")

end Service

/-- The two lifecycle operations the spec's invariant quantifies over:
`issue` is the code generation + `setVerificationCode` performed at
registration, `confirm` is the service-layer `verifyUser`. -/
inductive Op
  | issue (code : String)
  | confirm (code : String)
  deriving DecidableEq, Repr

/-- One lifecycle operation applied to a record's state.  A failed
`confirm` throws before any update, so the state is unchanged. -/
def step (r : Record) : Op → Record
  | .issue c => Repo.setVerificationCode c r
  | .confirm c =>
    match Service.verifyUser c (some r) with
    | .ok (r2, _) => r2
    | .error _ => r

/-! ## Access Guard (`checkRoles` in `src/5.Auth-Roles/src/middleware/bearAuth.ts`) -/

/-- The `requiredRole` parameter: `"admin" | "user" | "both"`. -/
inductive Req
  | admin
  | user
  | both
  deriving DecidableEq, Repr

/-- The string a `Req` value denotes (the TS parameter is the string itself). -/
def Req.str : Req → String
  | .admin => "admin"
  | .user => "user"
  | .both => "both"

/-- A decoded JWT payload object: whether a `role` property is present (and
its string value), and the optional `exp` claim in seconds since epoch. -/
structure JwtObj where
  role : Option String
  exp : Option Int
  deriving DecidableEq, Repr

/-- The result type of `jwt.verify`: a string or a payload object. -/
inductive Decoded
  | str (s : String)
  | obj (o : JwtObj)
  deriving DecidableEq, Repr

/-- The source's payload test
`typeof decoded === 'object' && decoded !== null && "role" in decoded`,
returning the role claim when it passes. -/
def roleOf : Decoded → Option String
  | .str _ => none
  | .obj o => o.role

/-- The two ways `checkRoles` can resolve a request: call `next()` once with
the decoded claims attached to the request, or send a status + JSON message
denial. -/
inductive Outcome
  | proceed (user : Decoded)
  | deny (status : Nat) (message : String)
  deriving DecidableEq, Repr

/-- JavaScript `s.split(' ')` on the character list: split at every single
space, keeping empty pieces. -/
def splitSpaces : List Char → List (List Char)
  | [] => [[]]
  | c :: cs =>
    let r := splitSpaces cs
    if c = ' ' then [] :: r
    else
      match r with
      | [] => [[c]]
      | w :: ws => (c :: w) :: ws

/-- JavaScript `s.split(' ')` as a `String` operation. -/
def splitStr (s : String) : List String :=
  (splitSpaces s.data).map fun l => ⟨l⟩

/-- The source's token extraction `authHeader.split(' ')[1]`.  After the
`'Bearer '` check a second piece always exists, so the default is never
reached. -/
def extractToken (h : String) : String :=
  (splitStr h).getD 1 ""

/-- The source's header test `authHeader.startsWith('Bearer ')` (an empty
header string is JS-falsy and fails the same branch). -/
def hasBearerScheme (h : String) : Bool :=
  h.data.take 7 == "Bearer ".data

/-- Embeds `checkRoles` from `src/5.Auth-Roles/src/middleware/bearAuth.ts`.
The `verify` parameter is the call `jwt.verify(token, process.env.JWT_SECRET)`;
a thrown error is an `Except.error`, caught by the source's `try/catch` and
mapped to the 401 `'Invalid Token'` response. -/
def checkRoles (requiredRole : Req) (verify : String → Except String Decoded)
    (authHeader : Option String) : Outcome :=
  match authHeader with
  | none => .deny 401 "Unauthorized"
  | some h =>
    if hasBearerScheme h then
      match verify (extractToken h) with
      | .error _ => .deny 401 "Invalid Token"
      | .ok decoded =>
        match roleOf decoded with
        | none => .deny 401 "Invalid Token Payload"
        | some r =>
          match requiredRole with
          | .both =>
            if r = "admin" ∨ r = "user" then .proceed decoded
            else .deny 401 "Unauthorized"
          | rr =>
            if r = rr.str then .proceed decoded
            else .deny 401 "Unauthorized"
    else .deny 401 "Unauthorized"

/-- Model of the external `jsonwebtoken` `verify` call, from its documented
behaviour: with no secret it throws (`secretOrPrivateKey must have a value`);
with a secret it throws on an invalid signature (`sigOK` abstracts the
cryptographic check of a token string against a secret), then throws
`jwt expired` when the payload carries an `exp` claim not in the future, and
otherwise returns the decoded payload (`payloadOf` abstracts decoding). -/
def jwtVerify (secret : Option String) (sigOK : String → String → Bool)
    (payloadOf : String → Decoded) (now : Int) (t : String) : Except String Decoded :=
  match secret with
  | none => .error "secretOrPrivateKey must have a value"
  | some s =>
    if sigOK s t = false then .error "invalid signature"
    else
      match payloadOf t with
      | .obj o =>
        match o.exp with
        | some e => if e ≤ now then .error "jwt expired" else .ok (.obj o)
        | none => .ok (.obj o)
      | d => .ok d

/-! ## Token Issuer (`loginUser` in the user service) -/

/-- A full `Users` row as used by `loginUser`. -/
structure User where
  userid : Nat
  first_name : String
  last_name : String
  email : String
  phone_number : String
  password : String
  role : String
  deriving DecidableEq, Repr

/-- The JWT payload `loginUser` constructs:
`{ sub, first_name, last_name, role, exp }`. -/
structure Payload where
  sub : Nat
  first_name : String
  last_name : String
  role : String
  exp : Int
  deriving DecidableEq, Repr

/-- A signed token: `jwt.sign(payload, secret)` modelled as the payload
paired with the signing secret (decoding recovers `payload`). -/
structure SignedToken where
  payload : Payload
  secret : String
  deriving DecidableEq, Repr

/-- The user object returned by `loginUser`:
`{ userid, first_name, last_name, email, phone_number }` — no password field
exists in this shape. -/
structure PublicUser where
  userid : Nat
  first_name : String
  last_name : String
  email : String
  phone_number : String
  deriving DecidableEq, Repr

/-- The sanitized copy of a row that `loginUser` returns. -/
def sanitize (u : User) : PublicUser :=
  ⟨u.userid, u.first_name, u.last_name, u.email, u.phone_number⟩

/-- The success value of `loginUser`. -/
structure LoginResult where
  message : String
  token : SignedToken
  user : PublicUser
  deriving DecidableEq, Repr

/-- Embeds `loginUser(email, password)` from the user service (unnamed
part_003).  `lookup` is the repository `getUserByEmail`, `compare` is
`bcrypt.compare`, `secret` is `process.env.JWT_SECRET` (absent = `none`),
and `now` is `Math.floor(Date.now() / 1000)`, the issuance time in seconds. -/
def loginUser (compare : String → String → Bool) (secret : Option String)
    (now : Int) (lookup : String → Option User)
    (email password : String) : Except String LoginResult :=
  match lookup email with
  | none => .error "User not found"
  | some user =>
    if compare password user.password = false then .error "Invalid credentials"
    else
      let payload : Payload :=
        ⟨user.userid, user.first_name, user.last_name, user.role, now + 3600⟩
      match secret with
      | none => .error "JWT secret not defined"
      | some s =>
        .ok ⟨"Login successful", ⟨payload, s⟩, sanitize user⟩

/-! ## Theorems: verification lifecycle -/

/-- Claim C1 (counterexample): the claim that no operation of the core ever
transitions `is_verified` from `true` back to `false` — and that the
false→true transition happens at most once in every operation sequence — is
false: starting from a fresh record, issue `"111111"`, confirm `"111111"`
(verified becomes true), then issue `"222222"` (`setVerificationCode` writes
`is_verified = 0`, a true→false transition), then confirm `"222222"`
(a second false→true transition). -/
theorem C1_counterexample :
    (step (step { is_verified := false, verification_code := none }
        (.issue "111111")) (.confirm "111111")).is_verified = true ∧
    (step (step (step { is_verified := false, verification_code := none }
        (.issue "111111")) (.confirm "111111")) (.issue "222222")).is_verified = false ∧
    (step (step (step (step { is_verified := false, verification_code := none }
        (.issue "111111")) (.confirm "111111")) (.issue "222222"))
        (.confirm "222222")).is_verified = true := by
  decide

/-- Claim C1 (amended): `is_verified` becomes true only when it already was
true or the operation is a confirm presenting the exact outstanding
verification code; the only operation that transitions it true→false is an
issue (`setVerificationCode` unconditionally resets the flag); a confirm
never transitions it true→false. -/
theorem C1_amended_transitions (r : Record) (op : Op) :
    ((step r op).is_verified = true →
      r.is_verified = true ∨ ∃ c, op = .confirm c ∧ r.verification_code = some c) ∧
    (r.is_verified = true → (step r op).is_verified = false → ∃ c, op = .issue c) ∧
    (∀ c, r.is_verified = true → (step r (.confirm c)).is_verified = true) := by
  refine ⟨?_, ?_, ?_⟩
  · cases op with
    | issue c => simp [step, Repo.setVerificationCode]
    | confirm c =>
      by_cases hc : r.verification_code = some c
      · intro _
        exact .inr ⟨c, rfl, hc⟩
      · simp [step, Service.verifyUser, hc]
  · cases op with
    | issue c => exact fun _ _ => ⟨c, rfl⟩
    | confirm c =>
      intro hv hv2
      by_cases hc : r.verification_code = some c
      · simp [step, Service.verifyUser, hc, Repo.verifyUser] at hv2
      · simp [step, Service.verifyUser, hc] at hv2
        simp [hv] at hv2
  · intro c hv
    by_cases hc : r.verification_code = some c <;>
      simp [step, Service.verifyUser, hc, Repo.verifyUser, hv]

/-- Claim C1 (witness for the amended theorem): a verified record stays
verified across a confirm attempt. -/
theorem C1_witness :
    ({ is_verified := true, verification_code := none } : Record).is_verified = true ∧
    (step { is_verified := true, verification_code := none }
      (.confirm "9")).is_verified = true :=
  ⟨rfl, (C1_amended_transitions { is_verified := true, verification_code := none }
    (.confirm "9")).2.2 "9" rfl⟩

/-- Claim C7: from a record with `is_verified = false`, issuing a code `c`
and immediately confirming with the exact code `c` succeeds: the flag
transitions false (still false after the issue) → true, and the stored code
is cleared; a second confirm with the same code then fails with the
invalid-code error because the stored code is `NULL`. -/
theorem C7_roundtrip (r : Record) (c : String) (_hv : r.is_verified = false) :
    (Repo.setVerificationCode c r).is_verified = false ∧
    Service.verifyUser c (some (Repo.setVerificationCode c r)) =
      .ok (Repo.verifyUser (Repo.setVerificationCode c r), "User verified successfully") ∧
    (Repo.verifyUser (Repo.setVerificationCode c r)).is_verified = true ∧
    (Repo.verifyUser (Repo.setVerificationCode c r)).verification_code = none ∧
    Service.verifyUser c (some (Repo.verifyUser (Repo.setVerificationCode c r))) =
      .error "Invalid verification code" := by
  refine ⟨rfl, ?_, rfl, rfl, ?_⟩ <;>
    simp [Service.verifyUser, Repo.verifyUser, Repo.setVerificationCode]

/-- Claim C7 (witness): the round trip at a concrete fresh record and the
code `"482913"`. -/
theorem C7_witness :
    ({ is_verified := false, verification_code := none } : Record).is_verified = false ∧
    Service.verifyUser "482913"
      (some (Repo.setVerificationCode "482913"
        { is_verified := false, verification_code := none })) =
      .ok (Repo.verifyUser (Repo.setVerificationCode "482913"
        { is_verified := false, verification_code := none }), "User verified successfully") := by
  have h := C7_roundtrip { is_verified := false, verification_code := none } "482913" rfl
  exact ⟨rfl, h.2.1⟩

/-- Claim C8: the service-layer confirm fails with `'User not found'` when
the lookup returns no row, and with `'Invalid verification code'` when the
submitted code differs from the stored one under exact equality — in which
case the record's state is unchanged (`is_verified` stays as it was and the
stored code is not cleared). -/
theorem C8_confirm_errors (c : String) (u : Record) :
    Service.verifyUser c none = .error "User not found" ∧
    (u.verification_code ≠ some c →
      Service.verifyUser c (some u) = .error "Invalid verification code" ∧
      step u (.confirm c) = u) := by
  refine ⟨rfl, fun hne => ⟨?_, ?_⟩⟩ <;> simp [step, Service.verifyUser, hne]

/-- Claim C8 (witness): the spec's scenario — submitted `"000000"` against a
stored `"482913"` fails with the invalid-code error and leaves the record
unchanged (so `is_verified` remains false); an absent row gives the
not-found error. -/
theorem C8_witness :
    Service.verifyUser "000000"
      (some { is_verified := false, verification_code := some "482913" }) =
      .error "Invalid verification code" ∧
    step { is_verified := false, verification_code := some "482913" } (.confirm "000000") =
      { is_verified := false, verification_code := some "482913" } ∧
    Service.verifyUser "000000" none = .error "User not found" := by
  have h := C8_confirm_errors "000000"
    { is_verified := false, verification_code := some "482913" }
  exact ⟨(h.2 (by decide)).1, (h.2 (by decide)).2, h.1⟩

/-! ## Theorems: Access Guard -/

/-- Claim C2: for every required role, every behaviour of the underlying
token verification call (including raising, modelled as `Except.error`), and
every authorization header, `checkRoles` resolves to exactly one outcome —
either `next()` is called once (`Outcome.proceed`) or an explicit 401 denial
is sent — and no exception escapes (every raised error is caught and mapped
to a 401 response). -/
theorem C2_guard_resolves (rr : Req) (verify : String → Except String Decoded)
    (authHeader : Option String) :
    (∃ d, checkRoles rr verify authHeader = .proceed d) ∨
    (∃ m, checkRoles rr verify authHeader = .deny 401 m) := by
  cases authHeader with
  | none => exact .inr ⟨"Unauthorized", rfl⟩
  | some h =>
    simp only [checkRoles]
    by_cases hb : hasBearerScheme h
    · simp only [hb, if_true]
      cases hv : verify (extractToken h) with
      | error e => exact .inr ⟨"Invalid Token", rfl⟩
      | ok d =>
        dsimp only
        cases hd : roleOf d with
        | none => exact .inr ⟨"Invalid Token Payload", rfl⟩
        | some r =>
          dsimp only
          cases rr with
          | both =>
            by_cases hr2 : r = "admin" ∨ r = "user"
            · exact .inl ⟨d, by simp [hr2]⟩
            · exact .inr ⟨"Unauthorized", by simp [hr2]⟩
          | admin =>
            by_cases hr2 : r = Req.admin.str
            · exact .inl ⟨d, by simp [hr2]⟩
            · exact .inr ⟨"Unauthorized", by simp [hr2]⟩
          | user =>
            by_cases hr2 : r = Req.user.str
            · exact .inl ⟨d, by simp [hr2]⟩
            · exact .inr ⟨"Unauthorized", by simp [hr2]⟩
    · simp only [hb, if_false]
      exact .inr ⟨"Unauthorized", by simp [hb]⟩

/-- Claim C3: on a structurally valid token whose decoded payload carries a
role claim `r`, a guard with required role `"both"` proceeds exactly when
`r` is `"admin"` or `"user"`, and a guard with required role `"admin"` or
`"user"` proceeds exactly when `r` equals it; in particular a role-`"user"`
token is denied by an `"admin"` guard and accepted by a `"both"` guard. -/
theorem C3_role_policy (verify : String → Except String Decoded) (h : String)
    (o : JwtObj) (r : String)
    (hb : hasBearerScheme h = true)
    (hv : verify (extractToken h) = .ok (.obj o))
    (hr : o.role = some r) :
    (checkRoles .both verify (some h) = .proceed (.obj o) ↔ (r = "admin" ∨ r = "user")) ∧
    (checkRoles .admin verify (some h) = .proceed (.obj o) ↔ r = "admin") ∧
    (checkRoles .user verify (some h) = .proceed (.obj o) ↔ r = "user") ∧
    (r = "user" →
      checkRoles .admin verify (some h) = .deny 401 "Unauthorized" ∧
      checkRoles .both verify (some h) = .proceed (.obj o)) := by
  refine ⟨?_, ?_, ?_, ?_⟩
  · by_cases hru : r = "admin" ∨ r = "user" <;>
      simp [checkRoles, hb, hv, roleOf, hr, hru]
  · by_cases hra : r = "admin" <;>
      simp [checkRoles, hb, hv, roleOf, hr, Req.str, hra]
  · by_cases hru : r = "user" <;>
      simp [checkRoles, hb, hv, roleOf, hr, Req.str, hru]
  · intro hru
    constructor <;> simp [checkRoles, hb, hv, roleOf, hr, Req.str, hru]

/-- A concrete stand-in for `jwt.verify` used to evaluate the guard at
concrete requests: `"tokA"` decodes to an admin payload, `"tokU"` to a user
payload, `"tokS"` to a bare string payload, and every other token raises. -/
def verify0 : String → Except String Decoded := fun t =>
  if t = "tokA" then .ok (.obj ⟨some "admin", none⟩)
  else if t = "tokU" then .ok (.obj ⟨some "user", none⟩)
  else if t = "tokS" then .ok (.str "oops")
  else .error "invalid"

/-- Claim C3 (witness): the concrete role-`"user"` token is denied by the
`"admin"` guard and accepted by the `"both"` guard. -/
theorem C3_witness :
    checkRoles .admin verify0 (some "Bearer tokU") = .deny 401 "Unauthorized" ∧
    checkRoles .both verify0 (some "Bearer tokU") = .proceed (.obj ⟨some "user", none⟩) := by
  have h := C3_role_policy verify0 "Bearer tokU" ⟨some "user", none⟩ "user"
    (by decide) rfl rfl
  exact ⟨(h.2.2.2 rfl).1, (h.2.2.2 rfl).2⟩

/-- Claim C4 (counterexample): the header `"Bearer tokA extra"` is not of the
exact form `Bearer <token>` (it has three space-separated parts), yet the
guard does not treat it like a missing header: it extracts the middle piece
`"tokA"`, verifies it, and proceeds, whereas a missing header is denied. -/
theorem C4_counterexample :
    checkRoles .admin verify0 (some "Bearer tokA extra") =
      .proceed (.obj ⟨some "admin", none⟩) ∧
    checkRoles .admin verify0 none = .deny 401 "Unauthorized" ∧
    checkRoles .admin verify0 (some "Bearer tokA extra") ≠
      checkRoles .admin verify0 none := by
  decide

/-- Claim C4 (amended): a header failing the `'Bearer '` prefix test
(case-sensitive scheme followed by a single space) is treated identically to
a missing header — the same 401 `'Unauthorized'` denial without invoking
verification; a header that passes the prefix test is processed, with the
token taken as the piece between the first and second space, even when the
header is not exactly of the form `Bearer <token>`. -/
theorem C4_amended_scheme_only (rr : Req) (verify : String → Except String Decoded)
    (h : String) (hb : hasBearerScheme h = false) :
    checkRoles rr verify (some h) = .deny 401 "Unauthorized" ∧
    checkRoles rr verify (some h) = checkRoles rr verify none := by
  constructor <;> simp [checkRoles, hb]

/-- Claim C4 (witness): the malformed header `"Token abc123"` (wrong scheme)
fails the prefix test and produces the same denial as a missing header. -/
theorem C4_witness :
    hasBearerScheme "Token abc123" = false ∧
    checkRoles .admin verify0 (some "Token abc123") = .deny 401 "Unauthorized" ∧
    checkRoles .admin verify0 (some "Token abc123") = checkRoles .admin verify0 none := by
  have h := C4_amended_scheme_only .admin verify0 "Token abc123" (by decide)
  exact ⟨by decide, h.1, h.2⟩

/-- Claim C6: for any header whose extracted token decodes to a payload with
an expiry not in the future, the guard denies with the generic 401
`'Invalid Token'` response regardless of whether the signature check
succeeds (the signature checker is universally quantified), and a token
failing the signature check receives the very same response — the two
failure causes are indistinguishable to the caller. -/
theorem C6_expired_token_denied (rr : Req) (s : String)
    (sigOK : String → String → Bool) (payloadOf : String → Decoded)
    (now : Int) (h : String) (o : JwtObj) (e : Int)
    (hb : hasBearerScheme h = true)
    (hp : payloadOf (extractToken h) = .obj o)
    (he : o.exp = some e)
    (hpast : e < now) :
    checkRoles rr (jwtVerify (some s) sigOK payloadOf now) (some h) =
      .deny 401 "Invalid Token" ∧
    (∀ h2, hasBearerScheme h2 = true → sigOK s (extractToken h2) = false →
      checkRoles rr (jwtVerify (some s) sigOK payloadOf now) (some h2) =
        .deny 401 "Invalid Token") := by
  constructor
  · by_cases hsig : sigOK s (extractToken h) = false
    · simp [checkRoles, hb, jwtVerify, hsig]
    · simp [checkRoles, hb, jwtVerify, hsig, hp, he, Int.le_of_lt hpast]
  · intro h2 hb2 hsig2
    simp [checkRoles, hb2, jwtVerify, hsig2]

/-- A concrete signature checker that rejects every token. -/
def sigOK0 : String → String → Bool := fun _ _ => false

/-- A concrete payload decoder: `"tokE"` carries an admin role and an expiry
at time 100; everything else decodes to a bare string. -/
def payloadOf0 : String → Decoded := fun t =>
  if t = "tokE" then .obj ⟨some "admin", some 100⟩ else .str "x"

/-- Claim C6 (witness): at time 200 the token `"tokE"` (expiry 100, in the
past) is denied with the generic 401 `'Invalid Token'` response even though
the signature checker is also quantified over — here one that rejects, and
the signature-failure response coincides. -/
theorem C6_witness :
    (100 : Int) < 200 ∧
    sigOK0 "sec" (extractToken "Bearer tokE") = false ∧
    checkRoles .both (jwtVerify (some "sec") sigOK0 payloadOf0 200)
      (some "Bearer tokE") = .deny 401 "Invalid Token" := by
  have h := C6_expired_token_denied .both "sec" sigOK0 payloadOf0 200 "Bearer tokE"
    ⟨some "admin", some 100⟩ 100 (by decide) (by decide) rfl (by decide)
  exact ⟨by decide, rfl, h.1⟩

/-- Claim C10: for every required role, a token that verification accepts
but whose decoded payload is a non-object or lacks a `role` property
(`roleOf` is `none`) is denied with the 401 `'Invalid Token Payload'`
response — so `next()` is never called. -/
theorem C10_invalid_payload (rr : Req) (verify : String → Except String Decoded)
    (h : String) (d : Decoded)
    (hb : hasBearerScheme h = true)
    (hv : verify (extractToken h) = .ok d)
    (hrole : roleOf d = none) :
    checkRoles rr verify (some h) = .deny 401 "Invalid Token Payload" := by
  simp [checkRoles, hb, hv, hrole]

/-- Claim C10 (witness): `"tokS"` verifies to a bare-string payload and is
denied with `'Invalid Token Payload'`. -/
theorem C10_witness :
    verify0 (extractToken "Bearer tokS") = .ok (.str "oops") ∧
    checkRoles .both verify0 (some "Bearer tokS") = .deny 401 "Invalid Token Payload" :=
  ⟨rfl, C10_invalid_payload .both verify0 "Bearer tokS" (.str "oops")
    (by decide) rfl rfl⟩

/-! ## Theorems: Token Issuer -/

/-- Claim C5: `loginUser` fails with `'User not found'` when no record with
the identifier exists, fails with `'Invalid credentials'` when the bcrypt
comparison of the secret against the stored hash rejects, and on a valid
pair (with the signing secret configured) returns a token whose decoded role
equals the stored role and whose expiry is the issuance time plus 3600
seconds, together with the sanitized copy of the record (a shape with no
password field). -/
theorem C5_login_contract (compare : String → String → Bool) (secret : Option String)
    (now : Int) (lookup : String → Option User) (email pw : String) :
    (lookup email = none →
      loginUser compare secret now lookup email pw = .error "User not found") ∧
    (∀ u, lookup email = some u → compare pw u.password = false →
      loginUser compare secret now lookup email pw = .error "Invalid credentials") ∧
    (∀ u s, lookup email = some u → compare pw u.password = true → secret = some s →
      ∃ res, loginUser compare secret now lookup email pw = .ok res ∧
        res.token.payload.role = u.role ∧
        res.token.payload.exp = now + 3600 ∧
        res.user = sanitize u) := by
  refine ⟨?_, ?_, ?_⟩
  · intro hl
    simp [loginUser, hl]
  · intro u hl hc
    simp [loginUser, hl, hc]
  · intro u s hl hc hs
    refine ⟨⟨"Login successful",
      ⟨⟨u.userid, u.first_name, u.last_name, u.role, now + 3600⟩, s⟩, sanitize u⟩,
      ?_, rfl, rfl, rfl⟩
    simp [loginUser, hl, hc, hs]

/-- A concrete stored row used to evaluate the login contract. -/
def user1 : User :=
  ⟨1, "Alice", "Mwangi", "alice@gmail.com", "0711000001", "hash1", "admin"⟩

/-- A concrete `getUserByEmail`: only `user1`'s email resolves. -/
def lookup1 : String → Option User :=
  fun e => if e = "alice@gmail.com" then some user1 else none

/-- A concrete stand-in for `bcrypt.compare`: plain equality of the
presented secret with the stored value. -/
def compare1 : String → String → Bool :=
  fun p stored => p = stored

/-- Claim C5 (witness): the contract evaluated at the concrete row, a
matching secret, signing secret `"sec"` and issuance time 1000. -/
theorem C5_witness :
    lookup1 "alice@gmail.com" = some user1 ∧
    compare1 "hash1" user1.password = true ∧
    ∃ res, loginUser compare1 (some "sec") 1000 lookup1 "alice@gmail.com" "hash1" = .ok res ∧
      res.token.payload.role = user1.role ∧
      res.token.payload.exp = 1000 + 3600 ∧
      res.user = sanitize user1 := by
  have h := (C5_login_contract compare1 (some "sec") 1000 lookup1
    "alice@gmail.com" "hash1").2.2 user1 "sec" (by decide) (by decide) rfl
  exact ⟨by decide, by decide, h⟩

/-- Claim C9 (counterexample): with no signing secret configured, a login
request with valid credentials fails per-request with
`'JWT secret not defined'`, and an Access Guard request fails per-request
with the generic 401 denial — so individual requests do observe the
missing-secret condition, and no startup check exists in the code. -/
theorem C9_counterexample :
    lookup1 "alice@gmail.com" = some user1 ∧
    compare1 "hash1" user1.password = true ∧
    loginUser compare1 none 1000 lookup1 "alice@gmail.com" "hash1" =
      .error "JWT secret not defined" ∧
    checkRoles .both (jwtVerify none sigOK0 payloadOf0 200) (some "Bearer tokE") =
      .deny 401 "Invalid Token" := by
  refine ⟨by decide, by decide, ?_, ?_⟩ <;> rfl

/-- Claim C9 (amended): the signing secret is read from the environment at
each operation, and a missing secret surfaces per-request: `loginUser`
fails the login attempt with `'JWT secret not defined'` after the
credential checks pass, and `checkRoles`' verification call raises, which
the guard maps to the per-request generic 401 `'Invalid Token'` denial;
there is no startup check. -/
theorem C9_amended_secret_per_request (compare : String → String → Bool)
    (now : Int) (lookup : String → Option User) (email pw : String) (u : User)
    (sigOK : String → String → Bool) (payloadOf : String → Decoded)
    (rr : Req) (h : String)
    (hl : lookup email = some u) (hc : compare pw u.password = true)
    (hb : hasBearerScheme h = true) :
    loginUser compare none now lookup email pw = .error "JWT secret not defined" ∧
    checkRoles rr (jwtVerify none sigOK payloadOf now) (some h) =
      .deny 401 "Invalid Token" := by
  constructor
  · simp [loginUser, hl, hc]
  · simp [checkRoles, hb, jwtVerify]

/-- Claim C9 (witness for the amended theorem): the per-request failures at
the concrete row and a concrete guarded request. -/
theorem C9_witness :
    loginUser compare1 none 1000 lookup1 "alice@gmail.com" "hash1" =
      .error "JWT secret not defined" ∧
    checkRoles .both (jwtVerify none sigOK0 payloadOf0 200) (some "Bearer tokE") =
      .deny 401 "Invalid Token" := by
  have h := C9_amended_secret_per_request compare1 1000 lookup1
    "alice@gmail.com" "hash1" user1 sigOK0 payloadOf0 .both "Bearer tokE"
    (by decide) (by decide) (by decide)
  exact h

end ExpressGuide
